import Mathlib

/-!
Verification of `OneTimeValue<T>` (src/one_time_value.hpp).

The C++ class wraps a `std::optional<T>` field `value_`. We embed the class
as a structure holding an `Option T`, and each member function as a pure
Lean function. Member functions that mutate the object are embedded as
functions returning the (result, new state) pair, or just the new state
when the C++ function returns `void`.
-/

/-- Shallow embedding of `template <typename T> class OneTimeValue`:
the single private field `std::optional<T> value_`. -/
structure OneTimeValue (T : Type) where
  value_ : Option T
deriving Repr, DecidableEq

namespace OneTimeValue

variable {T : Type}

/-- `OneTimeValue() = default`: default construction leaves `value_` as the
default-constructed `std::optional<T>`, i.e. empty. -/
def default_construct (T : Type) : OneTimeValue T := ⟨none⟩

/-- `OneTimeValue(const T &value) : value_(value)`: construction from a value
by copy. -/
def construct_copy (value : T) : OneTimeValue T := ⟨some value⟩

/-- `OneTimeValue(T &&value) : value_(std::move(value))`: construction from a
value by move. In the value-semantics embedding the moved-in value is the
same value as the source, so the resulting state equals `construct_copy`. -/
def construct_move (value : T) : OneTimeValue T := ⟨some value⟩

/-- `void set(const T &value) { value_ = value; }` (and the `T &&` overload,
which assigns the same value): unconditionally overwrites `value_`. -/
def set (c : OneTimeValue T) (value : T) : OneTimeValue T :=
  { c with value_ := some value }

/-- `bool has_value() const noexcept { return value_.has_value(); }`.
A `const` member: it takes the state and returns only a `Bool`, so it cannot
change the state. -/
def has_value (c : OneTimeValue T) : Bool :=
  c.value_.isSome

/-- `std::optional<T> consume()`: if `value_` is empty return `nullopt`;
otherwise move the contents out, `value_.reset()`, and return the moved-out
optional. Result is the pair (returned optional, state after the call). -/
def consume (c : OneTimeValue T) : Option T × OneTimeValue T :=
  match c.value_ with
  | none => (none, c)
  | some v => (some v, { c with value_ := none })

/-- `T take_or(const T &default_value)`: if `value_` holds a value, move it
out, `value_.reset()`, and return it; otherwise return the fallback.
Result is the pair (returned value, state after the call). -/
def take_or (c : OneTimeValue T) (default_value : T) : T × OneTimeValue T :=
  match c.value_ with
  | some v => (v, { c with value_ := none })
  | none => (default_value, c)

/-- `void reset() noexcept { value_.reset(); }`. -/
def reset (c : OneTimeValue T) : OneTimeValue T :=
  { c with value_ := none }

/-- The compiler-generated copy constructor: member-wise copy of `value_`,
producing an independent object with an equal `value_`. -/
def copy_construct (c : OneTimeValue T) : OneTimeValue T :=
  ⟨c.value_⟩

end OneTimeValue

/-- C1: One-time contract. For every container state, after `consume()` or
`take_or()` the slot is empty, so a second `consume()`/`take_or()` in a row
with no intervening `set()` observes an empty slot: the first call returns
the held value (if any), and the second returns the empty indicator
(`consume`) or the fallback (`take_or`), regardless of the first call's
outcome, and leaves the state unchanged. -/
theorem consume_twice_one_time_contract (T : Type) (c : OneTimeValue T) (d d' : T) :
    (c.consume).1 = c.value_ ∧
    (c.take_or d).1 = c.value_.getD d ∧
    ((c.consume).2).value_ = none ∧
    ((c.take_or d).2).value_ = none ∧
    ((c.consume).2).consume = (none, (c.consume).2) ∧
    ((c.consume).2).take_or d' = (d', (c.consume).2) ∧
    ((c.take_or d).2).consume = (none, (c.take_or d).2) ∧
    ((c.take_or d).2).take_or d' = (d', (c.take_or d).2) := by
  obtain ⟨val⟩ := c
  cases val <;>
    simp [OneTimeValue.consume, OneTimeValue.take_or]

/-- C2: `consume()` on a container holding `v` returns `some v` and empties
the slot; on an empty container it returns the empty indicator `none`,
leaves `has_value()` false, and repeating it gives the identical result with
an identical (unchanged) state. -/
theorem consume_spec (T : Type) (v : T) :
    (OneTimeValue.mk (some v)).consume = (some v, OneTimeValue.mk none) ∧
    ((OneTimeValue.mk (some v)).consume).2.has_value = false ∧
    (OneTimeValue.mk (none : Option T)).consume = (none, OneTimeValue.mk none) ∧
    ((OneTimeValue.mk (none : Option T)).consume).2.has_value = false ∧
    ((OneTimeValue.mk (none : Option T)).consume).2.consume =
      (OneTimeValue.mk (none : Option T)).consume := by
  refine ⟨rfl, rfl, rfl, rfl, rfl⟩

/-- C3: `take_or(d)` on a container holding `v` returns the stored `v`
(never consults the fallback) and leaves the container empty; on an empty
container it returns exactly `d` and the container stays empty
(`has_value()` remains false). -/
theorem take_or_spec (T : Type) (v d : T) :
    (OneTimeValue.mk (some v)).take_or d = (v, OneTimeValue.mk none) ∧
    ((OneTimeValue.mk (some v)).take_or d).2.has_value = false ∧
    (OneTimeValue.mk (none : Option T)).take_or d = (d, OneTimeValue.mk none) ∧
    ((OneTimeValue.mk (none : Option T)).take_or d).2.has_value = false := by
  refine ⟨rfl, rfl, rfl, rfl⟩

/-- C4: Overwrite semantics of `set()`. For all values `a`, `b` and every
starting state, `set(a)` then `set(b)` then `consume()` returns `some b`;
`set(b)` unconditionally replaces any previously held value (the new state
holds exactly `b`) and is defined in every state (never fails). -/
theorem set_overwrite (T : Type) (a b : T) (c : OneTimeValue T) :
    (((c.set a).set b).consume).1 = some b ∧
    (c.set b).value_ = some b ∧
    (c.set b).has_value = true := by
  refine ⟨rfl, rfl, rfl⟩

/-- C5: Totality. Every operation (`set`, `has_value`, `consume`,
`take_or`, `reset`) has a fully defined result in both container states
(empty and populated); absence of a value appears only in the return shape
(`none` from `consume`, the fallback from `take_or`), never as a fault. -/
theorem all_operations_total (T : Type) (v d w : T) :
    (OneTimeValue.mk (none : Option T)).set w = OneTimeValue.mk (some w) ∧
    (OneTimeValue.mk (none : Option T)).has_value = false ∧
    (OneTimeValue.mk (none : Option T)).consume = (none, OneTimeValue.mk none) ∧
    (OneTimeValue.mk (none : Option T)).take_or d = (d, OneTimeValue.mk none) ∧
    (OneTimeValue.mk (none : Option T)).reset = OneTimeValue.mk none ∧
    (OneTimeValue.mk (some v)).set w = OneTimeValue.mk (some w) ∧
    (OneTimeValue.mk (some v)).has_value = true ∧
    (OneTimeValue.mk (some v)).consume = (some v, OneTimeValue.mk none) ∧
    (OneTimeValue.mk (some v)).take_or d = (v, OneTimeValue.mk none) ∧
    (OneTimeValue.mk (some v)).reset = OneTimeValue.mk none := by
  refine ⟨rfl, rfl, rfl, rfl, rfl, rfl, rfl, rfl, rfl, rfl⟩

/-- C6: Construction. A default-constructed container is empty; a container
constructed from `v` by copy or by move is populated, its `consume()`
returns a result equal to `some v`, and afterwards `has_value()` is false. -/
theorem construction_spec (T : Type) (v : T) :
    (OneTimeValue.default_construct T).has_value = false ∧
    (OneTimeValue.construct_copy v).has_value = true ∧
    (OneTimeValue.construct_move v).has_value = true ∧
    ((OneTimeValue.construct_copy v).consume).1 = some v ∧
    ((OneTimeValue.construct_move v).consume).1 = some v ∧
    ((OneTimeValue.construct_copy v).consume).2.has_value = false ∧
    ((OneTimeValue.construct_move v).consume).2.has_value = false := by
  refine ⟨rfl, rfl, rfl, rfl, rfl, rfl, rfl⟩

/-- C7: `reset()`. In every state the slot becomes empty unconditionally:
after `reset()`, `has_value()` is false and a following `consume()` returns
the empty indicator `none`. -/
theorem reset_spec (T : Type) (c : OneTimeValue T) :
    (c.reset).value_ = none ∧
    (c.reset).has_value = false ∧
    ((c.reset).consume).1 = none := by
  refine ⟨rfl, rfl, rfl⟩

/-- C8: `has_value()` is a pure query: it is a function of the state alone
returning only a `Bool` (the embedding of a `const noexcept` member taking
no state output), it returns `true` iff the slot currently holds a value,
and since it produces no new state, calling it any number of times changes
nothing. -/
theorem has_value_pure_query (T : Type) (c : OneTimeValue T) :
    (c.has_value = true ↔ ∃ v, c.value_ = some v) ∧
    (c.has_value = false ↔ c.value_ = none) ∧
    c.has_value = c.value_.isSome := by
  refine ⟨?_, ?_, rfl⟩ <;>
    · obtain ⟨val⟩ := c
      cases val <;> simp [OneTimeValue.has_value]

/-- C9: `take_or()` leaves the fallback untouched. On a populated container
holding `v` it returns `v`, and its entire result (value and new state) is
independent of the fallback argument, so the fallback is neither retained
nor used in that branch; on an empty container it returns the fallback `d`
verbatim. -/
theorem take_or_fallback_untouched (T : Type) (v d d' : T) :
    ((OneTimeValue.mk (some v)).take_or d).1 = v ∧
    (OneTimeValue.mk (some v)).take_or d = (OneTimeValue.mk (some v)).take_or d' ∧
    ((OneTimeValue.mk (none : Option T)).take_or d).1 = d := by
  refine ⟨rfl, rfl, rfl⟩

/-- C10: Implicit copy semantics. The compiler-generated copy duplicates
the held value into an independent container: the copy of a container
holding `v` holds an equal value, consuming the copy yields `some v` and
empties only the copy, while the original container is unchanged and still
populated — the one-time guarantee is per container instance. -/
theorem copy_independent (T : Type) (v : T) :
    ((OneTimeValue.mk (some v)).copy_construct).value_ =
      (OneTimeValue.mk (some v)).value_ ∧
    (((OneTimeValue.mk (some v)).copy_construct).consume).1 = some v ∧
    (((OneTimeValue.mk (some v)).copy_construct).consume).2.has_value = false ∧
    (OneTimeValue.mk (some v)).has_value = true := by
  refine ⟨rfl, rfl, rfl, rfl⟩
